import Mathlib

set_option autoImplicit false

/-!
Verification of the lazybook backend real-time messaging core.

The definitions below are a shallow embedding of `src/backend/app/main.py`
and `src/backend/app/auth.py`:

* `ConnectionManager` (main.py lines 83-106) becomes `connect` / `disconnect`
  over an insertion-ordered association list `Registry` (a Python `dict` keeps
  insertion order; a Python `set` of sockets is a duplicate-free list of
  opaque handles).
* the per-frame body of the `chat` websocket handler (main.py lines 126-189)
  becomes the step function `chatStep`, with the effects of one loop iteration
  made explicit (frames sent to the sender, fan-out delivery attempts, handles
  passed to `disconnect`, loop control).
* token issue / verification (auth.py) becomes `generate_access_token` and
  `jwtDecode`; the auth dependencies become `get_current_user_dep` and
  `get_current_user_ws`; the websocket handshake prefix of `chat`
  (main.py lines 116-124) becomes `handshake`, instrumented with an event
  trace so that ordering properties are statable.
* external library behaviour (PyJWT, bcrypt, starlette) is modelled by its
  documented contract, noted at each definition.
-/

namespace Lazybook

/-- An opaque transport handle: the identity of one `WebSocket` object. -/
abbrev Handle := Nat

/-- The state of `ConnectionManager.active_connections : dict[int, set[WebSocket]]`:
an insertion-ordered association list from user id to the set (duplicate-free
list) of live handles. -/
abbrev Registry := List (Int × List Handle)

/-- Association-list lookup, embedding `self.active_connections.get(user_id)`
(and the membership test `user_id in self.active_connections`). -/
def lookupReg : Registry → Int → Option (List Handle)
  | [], _ => none
  | (u, s) :: rest, v => if u = v then some s else lookupReg rest v

/-- `ConnectionManager.connect` (main.py lines 87-92), after the transport
accept: create an empty set for `user_id` if absent (a new dict key is appended
at the end), then `set.add` the handle (a no-op when already present). -/
def connect (r : Registry) (user_id : Int) (ws : Handle) : Registry :=
  match r with
  | [] => [(user_id, [ws])]
  | (u, s) :: rest =>
    if u = user_id then (u, if ws ∈ s then s else s ++ [ws]) :: rest
    else (u, s) :: connect rest user_id ws

/-- `ConnectionManager.disconnect` (main.py lines 94-106): scan the entries in
order; at the first set containing the handle, discard it and stop; if that set
became empty, pop the whole entry from the dict. -/
def disconnect (r : Registry) (ws : Handle) : Registry :=
  match r with
  | [] => []
  | (u, s) :: rest =>
    if ws ∈ s then
      let s' := s.erase ws
      if s' = [] then rest else (u, s') :: rest
    else (u, s) :: disconnect rest ws

/-- One registry operation: a call to `connect` or to `disconnect`. -/
inductive RegOp where
  | conn (user_id : Int) (ws : Handle)
  | disc (ws : Handle)

/-- Apply one registry operation. -/
def applyOp (r : Registry) : RegOp → Registry
  | .conn u w => connect r u w
  | .disc w => disconnect r w

/-- Run a sequence of registry operations from the initially empty registry. -/
def runOps (ops : List RegOp) : Registry := ops.foldl applyOp []

/-- JSON values: the payloads produced by `websocket.receive_json()`. -/
inductive Json where
  | null
  | bool (b : Bool)
  | num (n : Int)
  | str (s : String)
  | arr (elems : List Json)
  | obj (fields : List (String × Json))

/-- Field lookup in a JSON object. -/
def jsonGet : List (String × Json) → String → Option Json
  | [], _ => none
  | (k, v) :: rest, key => if k = key then some v else jsonGet rest key

/-- The pydantic model `MessageIn` (main.py lines 72-74):
`recipient_id: int`, `contents: str`. -/
structure MessageIn where
  recipient_id : Int
  contents : String
deriving DecidableEq

/-- `MessageIn.model_validate(data)` (main.py line 137): succeeds exactly on a
JSON object carrying an integer `recipient_id` and a string `contents` (extra
fields are ignored, as pydantic does by default); anything else raises
`ValidationError`. Lax numeric-string coercion of pydantic is not modelled; no
claim depends on it. -/
def validateMessageIn (j : Json) : Option MessageIn :=
  match j with
  | .obj fields =>
    match jsonGet fields "recipient_id", jsonGet fields "contents" with
    | some (.num n), some (.str s) => some ⟨n, s⟩
    | _, _ => none
  | _ => none

/-- Modelled from the spec: the `Message` ORM model is imported by main.py from
`.models` but is absent from src/backend/app/models.py; section 3 of the spec
gives its shape as sender id, recipient id, contents, persisted id, created
timestamp (assigned by the Data Store). -/
structure Message where
  id : Nat
  sender_id : Int
  recipient_id : Int
  contents : String
  created_at : Nat
deriving DecidableEq

/-- The outbound delivery frame built at main.py lines 165-169:
`{sender_id, contents, created_at}`. -/
structure Outgoing where
  sender_id : Int
  contents : String
  created_at : Nat
deriving DecidableEq

/-- A frame sent back to the sender: `{type: "error", code}`. -/
inductive OutFrame where
  | error (code : String)
deriving DecidableEq

/-- The environment one loop iteration observes from its collaborators:
the Data Store (`db.get`, `db.commit`, the `created_at` it assigns) and the
transport (`send_json` success on the sender socket and on each recipient
handle). -/
structure Env where
  userExists : Int → Bool
  commitOk : Bool
  senderSendOk : Bool
  sendOk : Handle → Bool
  now : Nat

/-- The shared state a loop iteration can change: the connection registry and
the persisted messages table. -/
structure ChatState where
  registry : Registry
  msgs : List Message
deriving DecidableEq

/-- How one iteration of the `while True` body ends. `continueLoop` returns to
`receive_json`. `exitNoCleanup`: an exception other than `WebSocketDisconnect`
escaped the body; the only handler around the loop is
`except WebSocketDisconnect` (main.py line 188), so the coroutine terminates
without reaching the `disconnect` call at line 189. Starlette raises
`WebSocketDisconnect` only from `receive`, never from `send_json`, and the
`receive_json` call sits inside the inner `except Exception` (line 131) which
catches `WebSocketDisconnect` too (it subclasses `Exception`), so no
`WebSocketDisconnect` ever escapes the body and the line-189 branch is
unreachable; hence no cleanup-exit constructor exists. -/
inductive Control where
  | continueLoop
  | exitNoCleanup
deriving DecidableEq

/-- What `await websocket.receive_json()` does at the top of an iteration:
deliver a parsed JSON payload, raise `WebSocketDisconnect` (client closed), or
raise some other exception (unparsable frame, transport error). -/
inductive RecvEvent where
  | wsDisconnect
  | recvError
  | data (j : Json)

/-- The observable effects of one iteration of the loop body:
the new shared state, the frames sent to the sender, the fan-out delivery
attempts `(handle, payload)` in order, the handles passed to
`connection_manager.disconnect`, and the loop control. -/
structure StepOut where
  state : ChatState
  senderFrames : List OutFrame
  deliveries : List (Handle × Outgoing)
  disconnects : List Handle
  control : Control
deriving DecidableEq

/-- `await websocket.send_json({"type": "error", "code": code})` followed by
`continue`: when the send itself raises, the exception (not a
`WebSocketDisconnect`) escapes the loop body and the coroutine dies without
cleanup. -/
def sendErrorContinue (env : Env) (st : ChatState) (code : String) : StepOut :=
  if env.senderSendOk then
    ⟨st, [.error code], [], [], .continueLoop⟩
  else
    ⟨st, [], [], [], .exitNoCleanup⟩

/-- One iteration of the `while True` body of `chat` (main.py lines 127-186),
for the authenticated sender `meId`:
parse, validate, resolve the recipient, persist (the Data Store assigns id and
`created_at`), then fan out to the handles registered for the recipient at
that moment, collecting the handles whose send failed and passing each to
`disconnect` after the pass. -/
def chatStep (env : Env) (meId : Int) (st : ChatState) (ev : RecvEvent) :
    StepOut :=
  match ev with
  | .wsDisconnect => sendErrorContinue env st "bad_json"
  | .recvError => sendErrorContinue env st "bad_json"
  | .data j =>
    match validateMessageIn j with
    | none => sendErrorContinue env st "validation_error"
    | some incoming =>
      if ¬ env.userExists incoming.recipient_id then
        sendErrorContinue env st "recipient_not_found"
      else if ¬ env.commitOk then
        sendErrorContinue env st "db_error"
      else
        let message : Message :=
          ⟨st.msgs.length + 1, meId, incoming.recipient_id,
            incoming.contents, env.now⟩
        let msgs' := st.msgs ++ [message]
        let outgoing : Outgoing := ⟨meId, message.contents, message.created_at⟩
        match lookupReg st.registry incoming.recipient_id with
        | none => ⟨⟨st.registry, msgs'⟩, [], [], [], .continueLoop⟩
        | some targets =>
          if targets.isEmpty then
            ⟨⟨st.registry, msgs'⟩, [], [], [], .continueLoop⟩
          else
            let stale := targets.filter fun ws => !env.sendOk ws
            ⟨⟨stale.foldl disconnect st.registry, msgs'⟩, [],
              targets.map (fun ws => (ws, outgoing)), stale, .continueLoop⟩

/-- A signed JWT as a symbolic value: the payload written by
`generate_access_token` (auth.py lines 34-40) together with the key the token
was signed with. The Python payload carries `sub` as `str(user_id)` and the
decoder reads it back with `int(...)`; that round trip is the identity on
integers, so `sub` is kept as an `Int` here. -/
structure Token where
  sub : Int
  name : String
  iat : Nat
  exp : Nat
  typ : String
  key : String
deriving DecidableEq

/-- `generate_access_token` (auth.py lines 31-41): payload
`{sub, name, iat = now, exp = now + 15*60, typ = "access"}` signed with the
process-wide secret under HS256. -/
def generate_access_token (secret : String) (user_id : Int) (username : String)
    (now : Nat) : Token :=
  ⟨user_id, username, now, now + 15 * 60, "access", secret⟩

/-- Contract model of `jwt.decode(token, secret, algorithms=["HS256"])`
(PyJWT): raises `InvalidTokenError` when the signature does not verify under
`secret` (the token was signed under a different key) or when the token is
expired (per RFC 7519 a token is valid only while the current time is before
`exp`; `ExpiredSignatureError` and `InvalidSignatureError` both subclass
`InvalidTokenError`); otherwise returns the payload. -/
def jwtDecode (tok : Token) (secret : String) (now : Nat) : Option Token :=
  if tok.key = secret then
    if now < tok.exp then some tok else none
  else none

/-- The response of a failed request-scoped authentication: the status code
and detail of the raised `HTTPException` (FastAPI serialises the detail into
the response body, so callers observe both). -/
structure AuthError where
  status_code : Nat
  detail : String
deriving DecidableEq

/-- ASCII lowercase of one character, as Python `str.lower()` acts on the
scheme strings compared here. -/
def lowerChar (c : Char) : Char :=
  if 65 ≤ c.toNat ∧ c.toNat ≤ 90 then Char.ofNat (c.toNat + 32) else c

/-- Python `str.lower()` on the (ASCII) authentication scheme. -/
def lowerString (s : String) : String := ⟨s.data.map lowerChar⟩

/-- The bearer credentials produced by `HTTPBearer(auto_error=False)`:
`noCreds` when the Authorization header is absent or unparsable, otherwise the
scheme and the carried token. -/
inductive Creds where
  | noCreds
  | creds (scheme : String) (tok : Token)

/-- `get_current_user_dep` (auth.py lines 45-59): missing or wrong-scheme
credential gives 401 "missing bearer token"; `jwt.decode` failure gives 401
"invalid credentials"; a decoded subject with no matching user row gives 401
"user not found"; otherwise the authenticated user id. -/
def get_current_user_dep (secret : String) (now : Nat)
    (userExists : Int → Bool) (c : Creds) : Except AuthError Int :=
  match c with
  | .noCreds => .error ⟨401, "missing bearer token"⟩
  | .creds scheme tok =>
    if lowerString scheme ≠ "bearer" then .error ⟨401, "missing bearer token"⟩
    else
      match jwtDecode tok secret now with
      | none => .error ⟨401, "invalid credentials"⟩
      | some t =>
        if userExists t.sub then .ok t.sub else .error ⟨401, "user not found"⟩

/-- `get_current_user_ws` (auth.py lines 63-74): same verification core;
any failure (invalid or expired token, or unresolvable subject) raises
`WebSocketException(WS_1008_POLICY_VIOLATION)`, here `none`. -/
def get_current_user_ws (secret : String) (now : Nat)
    (userExists : Int → Bool) (tok : Token) : Option Int :=
  match jwtDecode tok secret now with
  | none => none
  | some t => if userExists t.sub then some t.sub else none

/-- Steps of the websocket handshake of `chat`, in execution order. -/
inductive HEvent where
  | originCheck
  | tokenVerify
  | accept
  | register
deriving DecidableEq

/-- How the handshake ends: refused with `WS_1008_POLICY_VIOLATION` before the
transport is accepted, or accepted and registered. -/
inductive HandshakeOutcome where
  | refusedPolicyViolation
  | accepted (uid : Int)
deriving DecidableEq

/-- The handshake prefix of `chat` (main.py lines 116-124), instrumented with
the trace of steps executed: first the declared Origin header is compared with
`FRONTEND_ORIGIN` (`headers.get("origin")` yields `none` when absent) and a
mismatch raises `WebSocketException(1008)`; then `get_current_user_ws`
verifies the query-parameter token, any failure raising the same policy
violation; only then `connection_manager.connect` accepts the transport and
registers the handle. -/
def handshake (secret : String) (now : Nat) (userExists : Int → Bool)
    (frontendOrigin : String) (originHeader : Option String) (tok : Token)
    (ws : Handle) (reg : Registry) :
    List HEvent × HandshakeOutcome × Registry :=
  if originHeader ≠ some frontendOrigin then
    ([.originCheck], .refusedPolicyViolation, reg)
  else
    match get_current_user_ws secret now userExists tok with
    | none => ([.originCheck, .tokenVerify], .refusedPolicyViolation, reg)
    | some uid =>
      ([.originCheck, .tokenVerify, .accept, .register],
        .accepted uid, connect reg uid ws)

/-- A bcrypt hash: the salt embedded in the output of `hashpw` together with
the derived digest. -/
structure BcryptHash where
  salt : Nat
  digest : Nat
deriving DecidableEq

/-- `hash_password` (auth.py lines 19-24), against the bcrypt contract:
`hashpw(password, gensalt())` deterministically derives a digest from the
password and the salt and embeds the salt in the returned hash string. The
key-derivation function itself is the parameter `digest`; the randomly
generated salt is the parameter `salt`. -/
def hash_password (digest : String → Nat → Nat) (salt : Nat)
    (raw_password : String) : BcryptHash :=
  ⟨salt, digest raw_password salt⟩

/-- `verify_password` (auth.py lines 27-28), against the bcrypt contract:
`checkpw` re-derives the digest of the candidate password with the salt
embedded in the stored hash and compares it with the stored digest. -/
def verify_password (digest : String → Nat → Nat) (raw_password : String)
    (hashed : BcryptHash) : Bool :=
  digest raw_password hashed.salt == hashed.digest

end Lazybook

namespace Lazybook

theorem connect_preserves_nonempty (r : Registry) (u : Int) (w : Handle)
    (h : ∀ p ∈ r, p.2 ≠ []) : ∀ p ∈ connect r u w, p.2 ≠ [] := by
  induction r with
  | nil => simp [connect]
  | cons hd tl ih =>
    intro p hp
    rw [connect] at hp
    by_cases hu : hd.1 = u
    · rw [if_pos hu] at hp
      rcases List.mem_cons.mp hp with h1 | h2
      · subst h1
        by_cases hw : w ∈ hd.2
        · simpa [hw] using h hd (List.mem_cons_self _ _)
        · simp [hw]
      · exact h p (List.mem_cons_of_mem _ h2)
    · rw [if_neg hu] at hp
      rcases List.mem_cons.mp hp with h1 | h2
      · subst h1; exact h hd (List.mem_cons_self _ _)
      · exact ih (fun q hq => h q (List.mem_cons_of_mem _ hq)) p h2

theorem disconnect_preserves_nonempty (r : Registry) (w : Handle)
    (h : ∀ p ∈ r, p.2 ≠ []) : ∀ p ∈ disconnect r w, p.2 ≠ [] := by
  induction r with
  | nil => simp [disconnect]
  | cons hd tl ih =>
    intro p hp
    rw [disconnect] at hp
    by_cases hw : w ∈ hd.2
    · rw [if_pos hw] at hp
      by_cases he : hd.2.erase w = []
      · rw [if_pos he] at hp
        exact h p (List.mem_cons_of_mem _ hp)
      · rw [if_neg he] at hp
        rcases List.mem_cons.mp hp with h1 | h2
        · subst h1; exact he
        · exact h p (List.mem_cons_of_mem _ h2)
    · rw [if_neg hw] at hp
      rcases List.mem_cons.mp hp with h1 | h2
      · subst h1; exact h hd (List.mem_cons_self _ _)
      · exact ih (fun q hq => h q (List.mem_cons_of_mem _ hq)) p h2

theorem foldl_preserves_nonempty (ops : List RegOp) (r : Registry)
    (h : ∀ p ∈ r, p.2 ≠ []) : ∀ p ∈ ops.foldl applyOp r, p.2 ≠ [] := by
  induction ops generalizing r with
  | nil => simpa using h
  | cons op rest ih =>
    intro p hp
    rw [List.foldl_cons] at hp
    refine ih (applyOp r op) ?_ p hp
    cases op with
    | conn u w => exact connect_preserves_nonempty r u w h
    | disc w => exact disconnect_preserves_nonempty r w h

theorem disconnect_skip (p : Int × List Handle) (r : Registry) (w : Handle)
    (h : w ∉ p.2) : disconnect (p :: r) w = p :: disconnect r w := by
  cases p with
  | mk u s => rw [disconnect]; simp [h]

theorem erase_eq_nil_iff_len_one (s : List Handle) (w : Handle) (hmem : w ∈ s) :
    s.erase w = [] ↔ s.length = 1 := by
  have hlen : (s.erase w).length = s.length - 1 := List.length_erase_of_mem hmem
  have hpos : 0 < s.length := List.length_pos.mpr (List.ne_nil_of_mem hmem)
  constructor
  · intro he
    rw [he] at hlen
    simp at hlen
    omega
  · intro hone
    have : (s.erase w).length = 0 := by omega
    exact List.eq_nil_of_length_eq_zero this

/-- C2: after any sequence of connect/disconnect operations applied to the
initially empty registry, every identity entry present holds a non-empty set of
handles; an entry emptied by a disconnect is removed by that same call, so no
empty entry is ever observable between operations. -/
theorem registry_entries_nonempty (ops : List RegOp) :
    ((runOps ops).all fun p => !p.2.isEmpty) = true := by
  rw [List.all_eq_true]
  intro p hp
  have h := foldl_preserves_nonempty ops [] (by simp) p hp
  simpa [List.isEmpty_iff] using h

/-- C9: when a registry holds the identity entry `(u, s)` and the handle `w`
lies in `s` and in no earlier entry (a handle belongs to at most one set),
`disconnect` removes exactly `w`: with `s.length = 1` the whole entry of `u`
disappears, otherwise the entry stays with exactly the other handles of `s`;
the entries before and after `u` are unchanged in either case. -/
theorem disconnect_removes_exactly (pre post : Registry) (u : Int)
    (s : List Handle) (w : Handle)
    (hfresh : ∀ p ∈ pre, w ∉ p.2) (hmem : w ∈ s) (hnd : s.Nodup) :
    disconnect (pre ++ (u, s) :: post) w
      = (if s.length = 1 then pre ++ post else pre ++ (u, s.erase w) :: post)
    ∧ (∀ x, x ∈ s.erase w ↔ (x ∈ s ∧ x ≠ w))
    ∧ (s.erase w).length = s.length - 1 := by
  refine ⟨?_, ?_, List.length_erase_of_mem hmem⟩
  · induction pre with
    | nil =>
      simp only [List.nil_append]
      rw [disconnect]
      rw [if_pos hmem]
      by_cases hone : s.length = 1
      · rw [if_pos ((erase_eq_nil_iff_len_one s w hmem).mpr hone)]
        simp [hone]
      · rw [if_neg (fun he => hone ((erase_eq_nil_iff_len_one s w hmem).mp he))]
        simp [hone]
    | cons p rest ih =>
      have hp : w ∉ p.2 := hfresh p (List.mem_cons_self _ _)
      have hrest : ∀ q ∈ rest, w ∉ q.2 :=
        fun q hq => hfresh q (List.mem_cons_of_mem _ hq)
      rw [List.cons_append, disconnect_skip p _ w hp, ih hrest]
      by_cases hone : s.length = 1 <;> simp [hone]
  · intro x
    rw [List.Nodup.mem_erase_iff hnd]
    tauto

/-- C9 witness: disconnecting one of two handles of identity 2 leaves the
entry of 2 with the other handle and leaves identity 1 untouched. -/
theorem disconnect_removes_exactly_witness :
    disconnect [(1, [10]), (2, [20, 21])] 20 = [(1, [10]), (2, [21])] := by
  have h := (disconnect_removes_exactly [(1, [10])] [] 2 [20, 21] 20
    (by decide) (by decide) (by decide)).1
  simpa using h

theorem chatStep_data_fanout (env : Env) (meId : Int) (st : ChatState)
    (j : Json) (m : MessageIn) (targets : List Handle)
    (hval : validateMessageIn j = some m)
    (hex : env.userExists m.recipient_id = true)
    (hcommit : env.commitOk = true)
    (hlook : lookupReg st.registry m.recipient_id = some targets)
    (hne : targets ≠ []) :
    chatStep env meId st (.data j)
      = ⟨⟨(targets.filter fun ws => !env.sendOk ws).foldl disconnect st.registry,
          st.msgs
            ++ [⟨st.msgs.length + 1, meId, m.recipient_id, m.contents,
                  env.now⟩]⟩,
        [], targets.map (fun ws => (ws, ⟨meId, m.contents, env.now⟩)),
        targets.filter fun ws => !env.sendOk ws, .continueLoop⟩ := by
  have hemp : targets.isEmpty = false := by
    cases targets with
    | nil => exact absurd rfl hne
    | cons a l => rfl
  simp [chatStep, hval, hex, hcommit, hlook, hemp]

/-- C1: a well-formed frame from the authenticated sender that passes
validation, recipient resolution and persistence produces exactly one fan-out
delivery attempt per handle registered for the recipient at fan-out time, each
carrying the payload `{sender_id, contents, created_at}`, and appends exactly
one Message row; the loop then continues. -/
theorem chat_wellformed_delivery (env : Env) (meId : Int) (st : ChatState)
    (j : Json) (m : MessageIn) (targets : List Handle)
    (hval : validateMessageIn j = some m)
    (hex : env.userExists m.recipient_id = true)
    (hcommit : env.commitOk = true)
    (hlook : lookupReg st.registry m.recipient_id = some targets)
    (hne : targets ≠ [])
    (hnd : targets.Nodup) :
    ((chatStep env meId st (.data j)).deliveries.length = targets.length)
    ∧ (∀ ws ∈ targets,
        ((chatStep env meId st (.data j)).deliveries.filter
          (fun d => d.1 == ws)).length = 1)
    ∧ (∀ d ∈ (chatStep env meId st (.data j)).deliveries,
        d.2 = (⟨meId, m.contents, env.now⟩ : Outgoing))
    ∧ ((chatStep env meId st (.data j)).state.msgs
        = st.msgs
            ++ [⟨st.msgs.length + 1, meId, m.recipient_id, m.contents,
                  env.now⟩])
    ∧ ((chatStep env meId st (.data j)).control = .continueLoop) := by
  rw [chatStep_data_fanout env meId st j m targets hval hex hcommit hlook hne]
  refine ⟨by simp, ?_, ?_, rfl, rfl⟩
  · intro ws hws
    rw [List.filter_map, List.length_map, ← List.countP_eq_length_filter]
    have hco : ((fun (d : Handle × Outgoing) => d.1 == ws)
        ∘ (fun w => (w, (⟨meId, m.contents, env.now⟩ : Outgoing))))
        = fun w => w == ws := rfl
    rw [hco]
    exact List.count_eq_one_of_mem hnd hws
  · intro d hd
    obtain ⟨w, _, rfl⟩ := List.mem_map.mp hd
    rfl

/-- C1 witness: identity 3 has the two registered handles 30 and 31; sender 7
sends one well-formed frame to 3; exactly one delivery attempt per handle and
exactly one persisted row result. -/
theorem chat_wellformed_delivery_witness :
    (chatStep ⟨fun _ => true, true, true, fun _ => true, 5⟩ 7
      ⟨[(3, [30, 31])], []⟩
      (.data (.obj [("recipient_id", .num 3),
        ("contents", .str "hi")]))).deliveries.length = 2
    ∧ (chatStep ⟨fun _ => true, true, true, fun _ => true, 5⟩ 7
      ⟨[(3, [30, 31])], []⟩
      (.data (.obj [("recipient_id", .num 3),
        ("contents", .str "hi")]))).state.msgs.length = 1 := by
  have h := chat_wellformed_delivery
    ⟨fun _ => true, true, true, fun _ => true, 5⟩
    7 ⟨[(3, [30, 31])], []⟩
    (.obj [("recipient_id", .num 3), ("contents", .str "hi")])
    ⟨3, "hi"⟩ [30, 31] (by decide) rfl rfl (by decide) (by decide) (by decide)
  refine ⟨by simpa using h.1, ?_⟩
  rw [h.2.2.2.1]
  rfl

/-- C4: on the same well-formed path, every handle registered for the
recipient receives exactly its own delivery attempt no matter which sends
fail (the attempt list does not depend on the send outcomes at all), the
handles passed to `disconnect` are exactly those whose send failed — collected
during the pass and disconnected after it — and the loop continues, so the
sender connection is never closed by a recipient-side send failure. -/
theorem fanout_isolates_failures (env : Env) (meId : Int) (st : ChatState)
    (j : Json) (m : MessageIn) (targets : List Handle)
    (hval : validateMessageIn j = some m)
    (hex : env.userExists m.recipient_id = true)
    (hcommit : env.commitOk = true)
    (hlook : lookupReg st.registry m.recipient_id = some targets)
    (hne : targets ≠ []) :
    (∀ ws ∈ targets,
        ((ws, (⟨meId, m.contents, env.now⟩ : Outgoing))
          ∈ (chatStep env meId st (.data j)).deliveries))
    ∧ ((chatStep env meId st (.data j)).disconnects
        = targets.filter fun ws => !env.sendOk ws)
    ∧ ((chatStep env meId st (.data j)).control = .continueLoop)
    ∧ (∀ f : Handle → Bool,
        (chatStep ⟨env.userExists, env.commitOk, env.senderSendOk, f, env.now⟩
            meId st (.data j)).deliveries
          = (chatStep env meId st (.data j)).deliveries) := by
  rw [chatStep_data_fanout env meId st j m targets hval hex hcommit hlook hne]
  refine ⟨?_, rfl, rfl, ?_⟩
  · intro ws hws
    exact List.mem_map.mpr ⟨ws, hws, rfl⟩
  · intro f
    rw [chatStep_data_fanout ⟨env.userExists, env.commitOk, env.senderSendOk,
      f, env.now⟩ meId st j m targets hval hex hcommit hlook hne]

/-- C4 witness: identity 3 has handles 30 and 31; the send to 30 fails; the
attempt to 31 still happens, exactly handle 30 is passed to disconnect, and
the sender loop continues. -/
theorem fanout_isolates_failures_witness :
    (31, (⟨7, "hi", 5⟩ : Outgoing))
      ∈ (chatStep ⟨fun _ => true, true, true, fun ws => ws != 30, 5⟩ 7
        ⟨[(3, [30, 31])], []⟩
        (.data (.obj [("recipient_id", .num 3),
          ("contents", .str "hi")]))).deliveries
    ∧ (chatStep ⟨fun _ => true, true, true, fun ws => ws != 30, 5⟩ 7
        ⟨[(3, [30, 31])], []⟩
        (.data (.obj [("recipient_id", .num 3),
          ("contents", .str "hi")]))).disconnects = [30]
    ∧ (chatStep ⟨fun _ => true, true, true, fun ws => ws != 30, 5⟩ 7
        ⟨[(3, [30, 31])], []⟩
        (.data (.obj [("recipient_id", .num 3),
          ("contents", .str "hi")]))).control = .continueLoop := by
  have h := fanout_isolates_failures
    ⟨fun _ => true, true, true, fun ws => ws != 30, 5⟩
    7 ⟨[(3, [30, 31])], []⟩
    (.obj [("recipient_id", .num 3), ("contents", .str "hi")])
    ⟨3, "hi"⟩ [30, 31] (by decide) rfl rfl (by decide) (by decide)
  refine ⟨h.1 31 (by decide), ?_, h.2.2.1⟩
  rw [h.2.1]
  rfl

/-- C8: when the send on the sender socket itself succeeds, an unparsable
frame produces exactly the one error frame `bad_json` and an out-of-schema
frame exactly the one error frame `validation_error`; in both cases the state
(registry and persisted messages) is unchanged, no delivery or disconnect
happens, and the loop continues — the connection is not closed. -/
theorem malformed_frame_nonfatal (env : Env) (meId : Int) (st : ChatState)
    (hsend : env.senderSendOk = true) :
    chatStep env meId st .recvError
      = ⟨st, [.error "bad_json"], [], [], .continueLoop⟩
    ∧ ∀ j, validateMessageIn j = none →
        chatStep env meId st (.data j)
          = ⟨st, [.error "validation_error"], [], [], .continueLoop⟩ := by
  constructor
  · simp [chatStep, sendErrorContinue, hsend]
  · intro j hj
    simp [chatStep, hj, sendErrorContinue, hsend]

/-- C8 witness: a number instead of an object fails validation; the handler
answers with one validation_error frame, persists nothing, and continues. -/
theorem malformed_frame_nonfatal_witness :
    chatStep ⟨fun _ => true, true, true, fun _ => true, 0⟩ 1
        ⟨[(1, [42])], []⟩ .recvError
      = ⟨⟨[(1, [42])], []⟩, [.error "bad_json"], [], [], .continueLoop⟩
    ∧ chatStep ⟨fun _ => true, true, true, fun _ => true, 0⟩ 1
        ⟨[(1, [42])], []⟩ (.data (.num 9))
      = ⟨⟨[(1, [42])], []⟩, [.error "validation_error"], [], [],
          .continueLoop⟩ := by
  have h := malformed_frame_nonfatal ⟨fun _ => true, true, true, fun _ => true, 0⟩
    1 ⟨[(1, [42])], []⟩ rfl
  exact ⟨h.1, h.2 (.num 9) rfl⟩

/-- C3 evidence: the failing input is a clean client-initiated close, raising
WebSocketDisconnect inside `receive_json`. The inner broad `except Exception`
(main.py line 131) catches it — WebSocketDisconnect subclasses Exception — and
answers with a bad_json error frame, so the exception never reaches the outer
`except WebSocketDisconnect` (line 188), the only place that calls
`connection_manager.disconnect(websocket)` for the session handle. Whether the
reply send succeeds (the loop continues against a closed peer) or itself
raises (the coroutine dies on an exception the outer clause does not catch),
no disconnect call happens and the registry still holds handle 42. -/
theorem clean_close_skips_cleanup :
    (chatStep ⟨fun _ => true, true, true, fun _ => true, 0⟩ 1
        ⟨[(1, [42])], []⟩ .wsDisconnect).disconnects = []
    ∧ (chatStep ⟨fun _ => true, true, true, fun _ => true, 0⟩ 1
        ⟨[(1, [42])], []⟩ .wsDisconnect).state.registry = [(1, [42])]
    ∧ (chatStep ⟨fun _ => true, true, true, fun _ => true, 0⟩ 1
        ⟨[(1, [42])], []⟩ .wsDisconnect).control = .continueLoop
    ∧ (chatStep ⟨fun _ => true, true, false, fun _ => true, 0⟩ 1
        ⟨[(1, [42])], []⟩ .wsDisconnect).disconnects = []
    ∧ (chatStep ⟨fun _ => true, true, false, fun _ => true, 0⟩ 1
        ⟨[(1, [42])], []⟩ .wsDisconnect).control = .exitNoCleanup := by
  refine ⟨rfl, rfl, rfl, rfl, rfl⟩

/-- C5: the handshake always runs the origin check first; whenever it refuses
(policy violation) the transport was never accepted and no registry entry was
created; any token-verification failure with a matching origin refuses; an
origin mismatch refuses with a trace containing only the origin check, and the
result is then the same for every token — the token is never verified. -/
theorem handshake_refuse_before_accept (secret : String) (now : Nat)
    (ue : Int → Bool) (fo : String) (oh : Option String) (tok : Token)
    (ws : Handle) (reg : Registry) :
    ((handshake secret now ue fo oh tok ws reg).1.head? = some .originCheck)
    ∧ ((handshake secret now ue fo oh tok ws reg).2.1 = .refusedPolicyViolation
        → HEvent.accept ∉ (handshake secret now ue fo oh tok ws reg).1
          ∧ HEvent.register ∉ (handshake secret now ue fo oh tok ws reg).1
          ∧ (handshake secret now ue fo oh tok ws reg).2.2 = reg)
    ∧ (oh = some fo → get_current_user_ws secret now ue tok = none
        → (handshake secret now ue fo oh tok ws reg).2.1
            = .refusedPolicyViolation)
    ∧ (oh ≠ some fo
        → (handshake secret now ue fo oh tok ws reg).1 = [.originCheck]
          ∧ (handshake secret now ue fo oh tok ws reg).2.1
              = .refusedPolicyViolation
          ∧ ∀ tok', handshake secret now ue fo oh tok' ws reg
              = handshake secret now ue fo oh tok ws reg)
    ∧ (HEvent.tokenVerify ∈ (handshake secret now ue fo oh tok ws reg).1
        → oh = some fo) := by
  by_cases hor : oh = some fo
  · cases hws : get_current_user_ws secret now ue tok with
    | none => simp [handshake, hor, hws]
    | some uid => simp [handshake, hor, hws]
  · simp [handshake, hor]

/-- C5 witness: with a wrong declared origin, the handshake refuses after only
the origin check, whatever the token. -/
theorem handshake_refuse_before_accept_witness :
    (handshake "k" 0 (fun _ => true) "good" (some "evil")
      ⟨1, "u", 0, 900, "access", "k"⟩ 5 []).1 = [HEvent.originCheck] := by
  exact ((handshake_refuse_before_accept "k" 0 (fun _ => true) "good"
    (some "evil") ⟨1, "u", 0, 900, "access", "k"⟩ 5 []).2.2.2.1
    (by decide)).1

/-- C6 counterexample: the missing-credential outcome and the invalid-token
outcome of the request-scoped auth dependency are different responses — the
detail strings differ — so the three failure cases are not identical and a
caller can tell them apart. -/
theorem auth_failure_outcomes_differ :
    get_current_user_dep "k" 0 (fun _ => false) .noCreds
      ≠ get_current_user_dep "k" 0 (fun _ => false)
          (.creds "Bearer" ⟨1, "u", 0, 900, "access", "other"⟩) := by
  intro h
  rw [show get_current_user_dep "k" 0 (fun _ => false)
        (.creds "Bearer" ⟨1, "u", 0, 900, "access", "other"⟩)
      = .error ⟨401, "invalid credentials"⟩ from rfl] at h
  injection h with h2
  exact absurd h2 (by decide)

/-- C6 amended: the three request-auth failure cases — missing or wrong-scheme
credential, invalid or expired token, and valid token with an unresolvable
subject — all carry HTTP status 401, but with three distinct detail strings
("missing bearer token", "invalid credentials", "user not found") visible in
the response body, so the caller can distinguish which case occurred. -/
theorem auth_failures_same_status_distinct_details (secret : String)
    (now : Nat) (ue : Int → Bool) (tok : Token) :
    (get_current_user_dep secret now ue .noCreds
        = .error ⟨401, "missing bearer token"⟩)
    ∧ (jwtDecode tok secret now = none
        → get_current_user_dep secret now ue (.creds "Bearer" tok)
            = .error ⟨401, "invalid credentials"⟩)
    ∧ (∀ t, jwtDecode tok secret now = some t → ue t.sub = false
        → get_current_user_dep secret now ue (.creds "Bearer" tok)
            = .error ⟨401, "user not found"⟩)
    ∧ (jwtDecode tok secret now = none
        → get_current_user_dep secret now ue (.creds "Bearer" tok)
            ≠ get_current_user_dep secret now ue .noCreds)
    ∧ (∀ t, jwtDecode tok secret now = some t → ue t.sub = false
        → get_current_user_dep secret now ue (.creds "Bearer" tok)
            ≠ get_current_user_dep secret now ue .noCreds) := by
  have hb : lowerString "Bearer" = "bearer" := by decide
  refine ⟨rfl, ?_, ?_, ?_, ?_⟩
  · intro h
    simp [get_current_user_dep, hb, h]
  · intro t ht hu
    simp [get_current_user_dep, hb, ht, hu]
  · intro h heq
    rw [show get_current_user_dep secret now ue .noCreds
        = .error ⟨401, "missing bearer token"⟩ from rfl] at heq
    simp [get_current_user_dep, hb, h] at heq
  · intro t ht hu heq
    rw [show get_current_user_dep secret now ue .noCreds
        = .error ⟨401, "missing bearer token"⟩ from rfl] at heq
    simp [get_current_user_dep, hb, ht, hu] at heq

/-- C6 witness: a token signed under a foreign key fails decoding, and the
resulting response is 401 with detail "invalid credentials", distinct from the
missing-credential response. -/
theorem auth_failures_same_status_distinct_details_witness :
    get_current_user_dep "k" 0 (fun _ => false)
        (.creds "Bearer" ⟨1, "u", 0, 900, "access", "other"⟩)
      = .error ⟨401, "invalid credentials"⟩ := by
  exact (auth_failures_same_status_distinct_details "k" 0 (fun _ => false)
    ⟨1, "u", 0, 900, "access", "other"⟩).2.1 rfl

/-- C7: a token issued at time t under `secret` decodes at checking time `now`
under checking secret `secret2` exactly when `secret2 = secret` and
`now < t + 900`; an expired or foreign-signed token therefore fails, and the
failure surfaces as the invalid-token outcome (401, invalid credentials). -/
theorem token_verification_window (secret secret2 : String) (uid : Int)
    (un : String) (t now : Nat) (ue : Int → Bool) :
    ((jwtDecode (generate_access_token secret uid un t) secret2 now).isSome
      ↔ (secret2 = secret ∧ now < t + 900))
    ∧ (¬ (secret2 = secret ∧ now < t + 900)
        → get_current_user_dep secret2 now ue
            (.creds "Bearer" (generate_access_token secret uid un t))
            = .error ⟨401, "invalid credentials"⟩) := by
  have hiff : (jwtDecode (generate_access_token secret uid un t) secret2
      now).isSome ↔ (secret2 = secret ∧ now < t + 900) := by
    constructor
    · intro hsome
      unfold jwtDecode at hsome
      by_cases hs : (generate_access_token secret uid un t).key = secret2
      · rw [if_pos hs] at hsome
        by_cases ht : now < (generate_access_token secret uid un t).exp
        · exact ⟨hs.symm, ht⟩
        · rw [if_neg ht] at hsome
          simp at hsome
      · rw [if_neg hs] at hsome
        simp at hsome
    · rintro ⟨hs, ht⟩
      unfold jwtDecode
      rw [if_pos (show (generate_access_token secret uid un t).key = secret2
        from hs.symm)]
      rw [if_pos (show now < (generate_access_token secret uid un t).exp
        from ht)]
      rfl
  refine ⟨hiff, ?_⟩
  intro hneg
  have hnone : jwtDecode (generate_access_token secret uid un t) secret2 now
      = none := by
    cases hj : jwtDecode (generate_access_token secret uid un t) secret2 now
      with
    | none => rfl
    | some t2 => exact absurd (hiff.mp (by rw [hj]; rfl)) hneg
  have hb : lowerString "Bearer" = "bearer" := by decide
  simp [get_current_user_dep, hb, hnone]

/-- C7 witness: a token issued at time 0 under "k" still verifies at time 899
under "k", no longer verifies at time 900, and fails under the foreign secret
"o" with the invalid-token response. -/
theorem token_verification_window_witness :
    ((jwtDecode (generate_access_token "k" 1 "u" 0) "k" 899).isSome = true)
    ∧ ((jwtDecode (generate_access_token "k" 1 "u" 0) "k" 900).isSome = false)
    ∧ (get_current_user_dep "o" 900 (fun _ => true)
        (.creds "Bearer" (generate_access_token "k" 1 "u" 0))
        = .error ⟨401, "invalid credentials"⟩) := by
  refine ⟨?_, ?_, ?_⟩
  · exact (token_verification_window "k" "k" 1 "u" 0 899
      (fun _ => true)).1.mpr ⟨rfl, by omega⟩
  · have h := (token_verification_window "k" "k" 1 "u" 0 900
      (fun _ => true)).1
    rw [← Bool.not_eq_true]
    intro hc
    exact absurd (h.mp hc).2 (by omega)
  · exact (token_verification_window "k" "o" 1 "u" 0 900 (fun _ => true)).2
      (by rintro ⟨hs, _⟩; exact absurd hs (by decide))

/-- C10: verifying a password against the hash produced from that same
password succeeds, for every password, every salt, and every key-derivation
function — the bcrypt round-trip contract of hash_password / verify_password. -/
theorem verify_password_roundtrip (digest : String → Nat → Nat) (salt : Nat)
    (p : String) :
    verify_password digest p (hash_password digest salt p) = true := by
  simp [verify_password, hash_password]

end Lazybook
